import Mathlib

/-!
Verification development for the celerey-api backend (Flask + MySQL).

This file gives a shallow embedding, in Lean 4, of the parts of the source
with genuine correctness requirements:

* `DBHelper.execute_query` (src/app/database.py) — the shared data-access
  gateway: one pooled connection per call, commit on write mode, rollback and
  re-raise on failure, close on every exit path.  External effects on the
  acquired connection are recorded as an explicit operation trace.
* `handle_webhook` (src/app/routes/billing.py) — the Stripe payment webhook:
  signature gate, event dispatch, idempotent paid-session transition.  The
  database is a list of `users` rows; calls made through the gateway are
  recorded as a trace, and a gateway failure during the UPDATE is injected
  through an explicit flag.
* `begin_journey` (src/app/routes/start.py) — lead capture: validation,
  user lookup/creation deduplicated by normalized email, support-lead insert,
  and the admin email notification, which the source performs synchronously
  inside the request handler.
* `create_concierge_request` (src/app/routes/concierge.py) — concierge
  intake: validation, insert, and an admin notification dispatched on a
  detached `threading.Thread` that the handler does not join.

Python falsiness of optional strings, `dict.get` defaults, and the exact
response payload fields relevant to the claims are carried over literally.
Timestamps are abstract `Nat` clock values, and the outcome of the external
mail provider is an explicit `EmailOutcome` parameter.
-/

namespace Celerey

/-- Python truthiness of an optional string (`if not s: ...` is the negation):
`None` and the empty string are falsy, every other string is truthy. -/
def isTruthy : Option String → Bool
  | none => false
  | some s => s != ""

/-! ## Data-access gateway — `DBHelper.execute_query` (src/app/database.py)

The gateway acquires one pooled connection, executes one statement, shapes the
result by the three selector flags (`fetch_one`, `fetch_all`, `lastrowid`,
tested in that order), commits only when none of the three is set, rolls back
and re-raises on any exception, and closes the connection in a `finally`
block whenever one was acquired.  The operations performed on the acquired
connection are returned as an ordered trace. -/

/-- One operation on the acquired connection / its cursor. -/
inductive ConnOp where
  | acquire
  | execute
  | commit
  | rollback
  | closeCursor
  | closeConn
  deriving Repr, DecidableEq

/-- Errors surfaced by the gateway: connection acquisition failure
(pool exhaustion) or a statement raising during execution. -/
inductive DbError where
  | connectFailed
  | queryFailed
  deriving Repr, DecidableEq

/-- The cursor results available after a successful execution; row payloads
are abstracted to `Nat` identifiers, which the claims never inspect. -/
structure CursorData where
  fetchedOne : Option Nat := none
  fetchedAll : List Nat := []
  lastInsertId : Nat := 0
  deriving Repr, DecidableEq

/-- The value `DBHelper.execute_query` returns on success: `None` in write
mode, one optional row, all rows, or the inserted identifier. -/
inductive ExecResult where
  | noneRes
  | oneRes (r : Option Nat)
  | allRes (rs : List Nat)
  | idRes (i : Nat)
  deriving Repr, DecidableEq

/-- Shallow embedding of `DBHelper.execute_query`.  `acquireFails` models
`get_db_connection()` raising (connection never assigned: no rollback, no
close); `execFails` models `cursor.execute` raising inside the `try` block
(rollback in `except`, close in `finally`, error re-raised).  On success the
result is shaped by the flags in the source's `if/elif` order and a commit is
issued exactly when no selector flag is set. -/
def execute_query (fetch_one fetch_all lastrowid : Bool)
    (acquireFails execFails : Bool) (cur : CursorData) :
    Except DbError ExecResult × List ConnOp :=
  if acquireFails then
    (Except.error DbError.connectFailed, [])
  else if execFails then
    (Except.error DbError.queryFailed,
     [ConnOp.acquire, ConnOp.execute, ConnOp.rollback, ConnOp.closeConn])
  else
    let result :=
      if fetch_one then ExecResult.oneRes cur.fetchedOne
      else if fetch_all then ExecResult.allRes cur.fetchedAll
      else if lastrowid then ExecResult.idRes cur.lastInsertId
      else ExecResult.noneRes
    let commitOps :=
      if !fetch_one && !fetch_all && !lastrowid then [ConnOp.commit] else []
    (Except.ok result,
     [ConnOp.acquire, ConnOp.execute] ++ commitOps
       ++ [ConnOp.closeCursor, ConnOp.closeConn])

/-! ## Webhook state — the `users` table rows touched by billing and start -/

/-- A row of the `users` table, restricted to the columns read or written by
`begin_journey` (src/app/routes/start.py) and the billing webhook
(src/app/routes/billing.py). -/
structure UserRow where
  id : String
  first_name : String := ""
  last_name : String := ""
  email : String := ""
  phone : String := ""
  time_zone : String := ""
  consent_to_contact : Bool := false
  has_paid : Bool := false
  paid_at : Option Nat := none
  stripe_customer_id : Option String := none
  stripe_latest_session_id : Option String := none
  stripe_latest_payment_intent_id : Option String := none
  created_at : Nat := 0
  deriving Repr, DecidableEq

/-- The `data.object` of a checkout-session event as the handler reads it:
every field is accessed with `.get`, hence optional. -/
structure SessionObject where
  id : Option String := none
  payment_status : Option String := none
  customer : Option String := none
  payment_intent : Option String := none
  metadata_user_id : Option String := none
  deriving Repr, DecidableEq

/-- A Stripe event envelope: its `type` string and the session object. -/
structure StripeEvent where
  type : String
  obj : SessionObject
  deriving Repr, DecidableEq

/-- Outcome of `stripe.Webhook.construct_event(payload, sig, secret)`:
a verified event, a `ValueError` (malformed payload), or a
`SignatureVerificationError`. -/
inductive ConstructResult where
  | ok (e : StripeEvent)
  | valueError
  | sigError
  deriving Repr, DecidableEq

/-- The JSON body and status the webhook endpoint responds with, restricted
to the fields the source actually emits. -/
structure WebhookResponse where
  status : Nat
  ok : Bool
  message : Option String := none
  error : Option String := none
  user_id : Option String := none
  deriving Repr, DecidableEq

/-- A call to the gateway made by the webhook handler. -/
inductive DbCall where
  | selectUser (uid : String)
  | updateUser (uid : String)
  deriving Repr, DecidableEq

/-- Result of one webhook delivery: response, resulting `users` table, and
the trace of gateway calls the handler performed. -/
structure WebhookResult where
  resp : WebhookResponse
  db : List UserRow
  calls : List DbCall
  deriving Repr, DecidableEq

/-- `SELECT ... FROM users WHERE id = %s` with `fetch_one=True`: the first
row whose `id` equals the bound value. -/
def findUser (db : List UserRow) (uid : String) : Option UserRow :=
  db.find? (fun u => u.id == uid)

/-- The idempotency check of the handler (billing.py lines 225–229):
`existing_user and existing_user.get('has_paid')` and then the stored
`stripe_latest_session_id` equal to this event's session id. -/
def isDuplicate (existing : Option UserRow) (s : SessionObject) : Bool :=
  match existing with
  | some u => u.has_paid && (u.stripe_latest_session_id == s.id)
  | none => false

/-- The `UPDATE users SET has_paid = 1, paid_at = %s, stripe_customer_id =
%s, stripe_latest_session_id = %s, stripe_latest_payment_intent_id = %s
WHERE id = %s` of the handler, applied to every row matching the id
(zero rows when the id is absent). -/
def applyPaymentUpdate (db : List UserRow) (uid : String) (s : SessionObject)
    (now : Nat) : List UserRow :=
  db.map fun u =>
    if u.id == uid then
      { u with
        has_paid := true
        paid_at := some now
        stripe_customer_id := s.customer
        stripe_latest_session_id := s.id
        stripe_latest_payment_intent_id := s.payment_intent }
    else u

/-- Shallow embedding of `handle_webhook` (src/app/routes/billing.py lines
179–280).  `sig_header` is the `Stripe-Signature` header (`if not
sig_header` rejects `None` and the empty string before anything else);
`construct` is the outcome of signature verification, which in the source is
the only reading of the payload; `updateFails` injects a gateway exception
into the UPDATE statement (the `try` around it answers 500
`DATABASE_ERROR`); `now` is `datetime.now()`. -/
def handle_webhook (db : List UserRow) (sig_header : Option String)
    (construct : ConstructResult) (updateFails : Bool) (now : Nat) :
    WebhookResult :=
  if !(isTruthy sig_header) then
    ⟨⟨400, false, none, some "Missing Stripe-Signature header", none⟩, db, []⟩
  else
    match construct with
    | ConstructResult.valueError =>
        ⟨⟨400, false, none, some "Invalid payload", none⟩, db, []⟩
    | ConstructResult.sigError =>
        ⟨⟨400, false, none, some "Invalid signature", none⟩, db, []⟩
    | ConstructResult.ok event =>
      if event.type == "checkout.session.completed" then
        let session := event.obj
        if session.payment_status != some "paid" then
          ⟨⟨200, true, some "Session not paid, ignoring", none, none⟩, db, []⟩
        else if !(isTruthy session.metadata_user_id) then
          ⟨⟨400, false, none, some "Missing user_id in metadata", none⟩, db, []⟩
        else
          let user_id := session.metadata_user_id.getD ""
          let existing_user := findUser db user_id
          if isDuplicate existing_user session then
            ⟨⟨200, true, some "Already processed", none, none⟩, db,
             [DbCall.selectUser user_id]⟩
          else if updateFails then
            ⟨⟨500, false, some "Failed to update user", some "DATABASE_ERROR", none⟩,
             db, [DbCall.selectUser user_id, DbCall.updateUser user_id]⟩
          else
            ⟨⟨200, true, some "Payment processed successfully", none, some user_id⟩,
             applyPaymentUpdate db user_id session now,
             [DbCall.selectUser user_id, DbCall.updateUser user_id]⟩
      else if event.type == "checkout.session.expired" then
        ⟨⟨200, true, some "Session expired noted", none, none⟩, db, []⟩
      else
        ⟨⟨200, true, some "Event received", none, none⟩, db, []⟩

/-! ## Lead capture — `begin_journey` (src/app/routes/start.py)

The handler validates the body, normalizes the email, looks an existing user
up by that email, inserts a fresh user (keyed by a UUID generated before the
lookup) only when none exists, always inserts a `support_leads` row, and —
when the email service is enabled and recipients are configured — performs
the admin-notification delivery attempt synchronously inside the handler,
logging but otherwise ignoring its outcome, before returning 201. -/

/-- ASCII transcription of Python `str.strip()`: drop leading and trailing
whitespace characters. -/
def pyIsSpace (c : Char) : Bool :=
  c == ' ' || c == '\t' || c == '\n' || c == '\r' || c == '\x0b' || c == '\x0c'

/-- Python `s.strip()` on ASCII input. -/
def pyStrip (s : String) : String :=
  ⟨((s.toList.dropWhile pyIsSpace).reverse.dropWhile pyIsSpace).reverse⟩

/-- Python `s.lower()` on ASCII input. -/
def pyLower (s : String) : String :=
  ⟨s.toList.map Char.toLower⟩

/-- `normalize_email` of start.py and concierge.py: `email.strip().lower()`. -/
def normalize_email (email : String) : String :=
  pyLower (pyStrip email)

/-- Character class `[a-zA-Z0-9._%+-]` of the email regex's local part. -/
def isLocalChar (c : Char) : Bool :=
  c.isAlphanum || c == '.' || c == '_' || c == '%' || c == '+' || c == '-'

/-- Character class `[a-zA-Z0-9.-]` of the email regex's domain part. -/
def isDomainChar (c : Char) : Bool :=
  c.isAlphanum || c == '.' || c == '-'

/-- Boolean transcription of `validate_email` (start.py lines 70–72), the
anchored regex `[a-zA-Z0-9._%+-]+@[a-zA-Z0-9.-]+\.[a-zA-Z]\x7b2,\x7d` over
the whole string.  None of the three classes contains the at-sign, so a
match splits the string at its unique at-sign; the final `[a-zA-Z]` run
contains no dot, so greedy matching succeeds exactly when the split at the
last dot after the at-sign has a nonempty domain-class run before it and at
least two letters after it. -/
def validate_email (s : String) : Bool :=
  let cs := s.toList
  let localPart := cs.takeWhile (fun c => c != '@')
  match cs.dropWhile (fun c => c != '@') with
  | [] => false
  | _ :: afterAt =>
    let tld := (afterAt.reverse.takeWhile (fun c => c != '.')).reverse
    let domainPart := afterAt.take (afterAt.length - tld.length - 1)
    !localPart.isEmpty && localPart.all isLocalChar
      && afterAt.all (fun c => c != '@')
      && afterAt.contains '.'
      && !domainPart.isEmpty && domainPart.all isDomainChar
      && decide (2 ≤ tld.length) && tld.all Char.isAlpha

/-- `validate_phone` (concierge.py lines 81–84): at least ten digits among
the phone string's characters. -/
def validate_phone (phone : String) : Bool :=
  decide (10 ≤ (phone.toList.filter Char.isDigit).length)

/-- The JSON body of a lead-capture request; each field read with
`data.get`, hence optional, plus the request metadata the handler stores. -/
structure JourneyRequest where
  firstName : Option String := none
  lastName : Option String := none
  email : Option String := none
  phone : Option String := none
  timeZone : Option String := none
  agree : Option Bool := none
  remoteAddr : String := ""
  userAgent : Option String := none
  deriving Repr, DecidableEq

/-- A row of the `support_leads` table as inserted by `begin_journey`. -/
structure LeadRow where
  id : Nat
  first_name : String := ""
  last_name : String := ""
  email : String := ""
  phone : String := ""
  time_zone : String := ""
  consent_to_contact : Bool := false
  source : String := ""
  status : String := ""
  user_id : String := ""
  ip_address : String := ""
  user_agent : Option String := none
  created_at : Nat := 0
  deriving Repr, DecidableEq

/-- Database state visible to `begin_journey`: the `users` and
`support_leads` tables, plus the auto-increment counter that yields
`cursor.lastrowid` for the lead insert. -/
structure StartDb where
  users : List UserRow := []
  support_leads : List LeadRow := []
  next_lead_id : Nat := 1
  deriving Repr, DecidableEq

/-- Outcome of one call to the mail provider
(`EmailService.send_lead_notification` / `send_concierge_notification`,
src/app/services/email.py): the provider acknowledged with an id, the
service returned an error payload, or the attempt raised an exception. -/
inductive EmailOutcome where
  | sent (id : String)
  | failed (err : String)
  | raised (err : String)
  deriving Repr, DecidableEq

/-- The email configuration read by the routes: `email_service.enabled`
(API key present) and `email_service.admin_emails`. -/
structure EmailConfig where
  enabled : Bool := false
  admin_emails : List String := []
  deriving Repr, DecidableEq

/-- Externally visible steps a record-creating handler performs, in
execution order.  `emailAttempt` is a delivery attempt executed
synchronously by the code that records it; `spawnWorker` is the start of a
detached `threading.Thread` whose delivery attempt happens outside the
recording trace. -/
inductive Effect where
  | dbSelectUserByEmail (email : String)
  | dbInsertUser (id : String)
  | dbInsertLead (id : Nat)
  | dbInsertConcierge (id : Nat)
  | emailAttempt (o : EmailOutcome)
  | spawnWorker
  deriving Repr, DecidableEq

/-- Recognizer for delivery attempts in a trace. -/
def isEmailAttempt : Effect → Bool
  | Effect.emailAttempt _ => true
  | _ => false

/-- Validation of `begin_journey` (start.py lines 90–106): every field of
`required` that is falsy is an error, and a present truthy email failing
`validate_email` is an error.  Only emptiness of the collection matters. -/
def journeyErrors (req : JourneyRequest) : List String :=
  ((if !(isTruthy req.firstName) then ["firstName"] else [])
    ++ (if !(isTruthy req.lastName) then ["lastName"] else [])
    ++ (if !(isTruthy req.email) then ["email"] else [])
    ++ (if !(isTruthy req.phone) then ["phone"] else [])
    ++ (if !(isTruthy req.timeZone) then ["timeZone"] else [])
    ++ (if req.agree.getD false == false then ["agree"] else []))
  ++ (match req.email with
      | some e => if e != "" && !(validate_email e) then ["email format"] else []
      | none => [])

/-- The JSON body and status `begin_journey` responds with; message strings
are omitted, the claims only concern status, ok, and the identifiers. -/
structure JourneyResponse where
  status : Nat
  ok : Bool
  userId : Option String := none
  leadId : Option Nat := none
  error : Option String := none
  deriving Repr, DecidableEq

/-- Result of one lead-capture request: response, database state, and the
ordered trace of effects the handler itself executed before returning. -/
structure JourneyResult where
  resp : JourneyResponse
  db : StartDb
  effects : List Effect
  deriving Repr, DecidableEq

/-- Shallow embedding of `begin_journey` (src/app/routes/start.py lines
77–236).  `user_uuid` is the `uuid.uuid4()` drawn before the lookup, `now`
is `datetime.now()`, and `emailResult` is the outcome of the provider call
the handler makes synchronously (start.py line 220) when the service is
enabled and recipients exist; the user insert runs in write mode (returns
`None`, so `user_id` falls back to the UUID) and the lead insert runs with
`lastrowid=True`. -/
def begin_journey (cfg : EmailConfig) (req : JourneyRequest) (db : StartDb)
    (user_uuid : String) (now : Nat) (emailResult : EmailOutcome) :
    JourneyResult :=
  if !(journeyErrors req).isEmpty then
    ⟨⟨400, false, none, none, some "VALIDATION_ERROR"⟩, db, []⟩
  else
    let normalized_email := normalize_email (req.email.getD "")
    let existing_user := db.users.find? (fun u => u.email == normalized_email)
    let eff0 := [Effect.dbSelectUserByEmail normalized_email]
    let newUser : UserRow :=
      { id := user_uuid
        first_name := pyStrip (req.firstName.getD "")
        last_name := pyStrip (req.lastName.getD "")
        email := normalized_email
        phone := pyStrip (req.phone.getD "")
        time_zone := pyStrip (req.timeZone.getD "")
        consent_to_contact := req.agree.getD false
        has_paid := false
        created_at := now }
    let user_id :=
      match existing_user with
      | some u => u.id
      | none => user_uuid
    let db1 :=
      match existing_user with
      | some _ => db
      | none => { db with users := db.users ++ [newUser] }
    let eff1 :=
      match existing_user with
      | some _ => eff0
      | none => eff0 ++ [Effect.dbInsertUser user_uuid]
    let lead_id := db1.next_lead_id
    let newLead : LeadRow :=
      { id := lead_id
        first_name := pyStrip (req.firstName.getD "")
        last_name := pyStrip (req.lastName.getD "")
        email := normalized_email
        phone := pyStrip (req.phone.getD "")
        time_zone := pyStrip (req.timeZone.getD "")
        consent_to_contact := req.agree.getD false
        source := "begin_journey_modal"
        status := "new"
        user_id := user_id
        ip_address := req.remoteAddr
        user_agent := req.userAgent
        created_at := now }
    let db2 := { db1 with
                 support_leads := db1.support_leads ++ [newLead]
                 next_lead_id := lead_id + 1 }
    let eff2 := eff1 ++ [Effect.dbInsertLead lead_id]
    let eff3 :=
      if cfg.enabled && !cfg.admin_emails.isEmpty then
        eff2 ++ [Effect.emailAttempt emailResult]
      else eff2
    ⟨⟨201, true, some user_id, some lead_id, none⟩, db2, eff3⟩

/-! ## Concierge intake — `create_concierge_request`
(src/app/routes/concierge.py)

The handler validates the contact block and service selection, inserts a
`concierge_requests` row with `lastrowid=True`, and — when the email service
is enabled and recipients exist — starts a non-daemon `threading.Thread`
running `send_concierge_admin_notification_async` and returns without
joining it. -/

/-- The JSON body of a concierge request as the handler reads it. -/
structure ConciergeReq where
  firstName : Option String := none
  lastName : Option String := none
  email : Option String := none
  phone : Option String := none
  location : Option String := none
  selectedServices : List String := []
  specialRequirements : String := ""
  notes : String := ""
  additionalContext : String := ""
  remoteAddr : String := ""
  userAgent : Option String := none
  deriving Repr, DecidableEq

/-- A row of the `concierge_requests` table as inserted by the handler;
the JSON-encoded services column is kept as the list it encodes. -/
structure ConciergeRow where
  id : Nat
  first_name : String := ""
  last_name : String := ""
  email : String := ""
  phone : String := ""
  location : String := ""
  selected_services : List String := []
  special_requirements : String := ""
  notes : String := ""
  additional_context : String := ""
  source : String := ""
  status : String := ""
  ip_address : String := ""
  user_agent : Option String := none
  created_at : Nat := 0
  deriving Repr, DecidableEq

/-- Database state visible to the concierge route. -/
structure ConciergeDb where
  requests : List ConciergeRow := []
  next_id : Nat := 1
  deriving Repr, DecidableEq

/-- Validation of `create_concierge_request` (concierge.py lines 107–132). -/
def conciergeErrors (req : ConciergeReq) : List String :=
  (if !(isTruthy req.firstName) then ["contact.firstName"] else [])
    ++ (if !(isTruthy req.lastName) then ["contact.lastName"] else [])
    ++ (if !(isTruthy req.email) then ["contact.email"] else [])
    ++ (if !(isTruthy req.phone) then ["contact.phone"] else [])
    ++ (match req.email with
        | some e => if e != "" && !(validate_email e) then ["contact.email format"] else []
        | none => [])
    ++ (match req.phone with
        | some p => if p != "" && !(validate_phone p) then ["contact.phone invalid"] else []
        | none => [])
    ++ (if req.selectedServices.isEmpty then ["selectedServices"] else [])

/-- The JSON body and status the concierge endpoint responds with. -/
structure ConciergeResponse where
  status : Nat
  ok : Bool
  submissionId : Option Nat := none
  error : Option String := none
  deriving Repr, DecidableEq

/-- Result of one concierge request: response, database state, and the
handler's own effect trace. -/
structure ConciergeResult where
  resp : ConciergeResponse
  db : ConciergeDb
  effects : List Effect
  deriving Repr, DecidableEq

/-- Body of the detached worker `send_concierge_admin_notification_async`
(concierge.py lines 51–66): when the service is enabled it makes exactly one
delivery attempt, catching and logging any failure.  This trace is the
worker's, not the request handler's. -/
def send_concierge_admin_notification_async (cfg : EmailConfig)
    (o : EmailOutcome) : List Effect :=
  if !cfg.enabled then [] else [Effect.emailAttempt o]

/-- Shallow embedding of `create_concierge_request`
(src/app/routes/concierge.py lines 86–224).  On valid input the row is
inserted with `lastrowid=True`; when the service is enabled with recipients
a detached thread is started (`thread.start()`, never joined — the 0.1 s
`time.sleep` only yields the scheduler) and the handler answers 201
immediately. -/
def create_concierge_request (cfg : EmailConfig) (req : ConciergeReq)
    (db : ConciergeDb) (now : Nat) : ConciergeResult :=
  if !(conciergeErrors req).isEmpty then
    ⟨⟨400, false, none, some "VALIDATION_ERROR"⟩, db, []⟩
  else
    let row : ConciergeRow :=
      { id := db.next_id
        first_name := pyStrip (req.firstName.getD "")
        last_name := pyStrip (req.lastName.getD "")
        email := normalize_email (req.email.getD "")
        phone := pyStrip (req.phone.getD "")
        location := pyStrip (req.location.getD "")
        selected_services := req.selectedServices
        special_requirements := pyStrip req.specialRequirements
        notes := pyStrip req.notes
        additional_context := pyStrip req.additionalContext
        source := "concierge_pricing_page"
        status := "new"
        ip_address := req.remoteAddr
        user_agent := req.userAgent
        created_at := now }
    let db1 : ConciergeDb :=
      { requests := db.requests ++ [row], next_id := db.next_id + 1 }
    let eff :=
      if cfg.enabled && !cfg.admin_emails.isEmpty then
        [Effect.dbInsertConcierge row.id, Effect.spawnWorker]
      else
        [Effect.dbInsertConcierge row.id]
    ⟨⟨201, true, some row.id, none⟩, db1, eff⟩

/-! ## Helper lemmas about the payment update -/

/-- Updating the payment fields by id does not change which row a lookup by
the same id finds: the found row is the found row of the original table with
the payment fields overwritten. -/
theorem findUser_update_found (db : List UserRow) (uid : String)
    (s : SessionObject) (now : Nat) (u : UserRow)
    (hfind : findUser db uid = some u) :
    findUser (applyPaymentUpdate db uid s now) uid =
      some { u with
             has_paid := true
             paid_at := some now
             stripe_customer_id := s.customer
             stripe_latest_session_id := s.id
             stripe_latest_payment_intent_id := s.payment_intent } := by
  induction db with
  | nil => simp [findUser] at hfind
  | cons x xs ih =>
    by_cases hx : x.id = uid
    · have hxb : (x.id == uid) = true := by simp [hx]
      simp only [findUser, List.find?_cons, hxb, cond_true, Option.some.injEq] at hfind
      subst hfind
      simp [findUser, applyPaymentUpdate, List.find?_cons, hx]
    · have hxb : (x.id == uid) = false := by simp [hx]
      simp only [findUser, List.find?_cons, hxb, cond_false] at hfind
      simpa [findUser, applyPaymentUpdate, List.find?_cons, hx] using ih hfind

/-- When no row matches the id, the UPDATE matches zero rows and the table
is unchanged. -/
theorem applyPaymentUpdate_not_found (db : List UserRow) (uid : String)
    (s : SessionObject) (now : Nat) (h : findUser db uid = none) :
    applyPaymentUpdate db uid s now = db := by
  induction db with
  | nil => rfl
  | cons x xs ih =>
    by_cases hx : x.id = uid
    · have hxb : (x.id == uid) = true := by simp [hx]
      simp [findUser, List.find?_cons, hxb] at h
    · have hxb : (x.id == uid) = false := by simp [hx]
      simp only [findUser, List.find?_cons, hxb, cond_false] at h
      simpa [applyPaymentUpdate, hx] using ih h

/-- C1: for every account and every validly signed `checkout.session.completed`
event with payment status `paid` whose metadata account id names an existing
account for which this session is not already recorded, one processing sets
the payment flag, timestamp, and
the provider customer, session, and payment-intent identifiers; processing
the identical event again leaves the table exactly as after the first
processing and answers 200 "Already processed" without issuing the UPDATE,
whether or not the gateway would fail on it. -/
theorem webhook_paid_idempotent
    (db : List UserRow) (sig : Option String) (e : StripeEvent) (u : UserRow)
    (uid : String) (now now2 : Nat) (uF2 : Bool)
    (hsig : isTruthy sig = true)
    (htype : e.type = "checkout.session.completed")
    (hpaid : e.obj.payment_status = some "paid")
    (hmeta : e.obj.metadata_user_id = some uid)
    (huid : uid ≠ "")
    (hfind : findUser db uid = some u)
    (hnodup : isDuplicate (findUser db uid) e.obj = false) :
    (handle_webhook db sig (ConstructResult.ok e) false now).resp =
      ⟨200, true, some "Payment processed successfully", none, some uid⟩ ∧
    findUser (handle_webhook db sig (ConstructResult.ok e) false now).db uid =
      some { u with
             has_paid := true
             paid_at := some now
             stripe_customer_id := e.obj.customer
             stripe_latest_session_id := e.obj.id
             stripe_latest_payment_intent_id := e.obj.payment_intent } ∧
    handle_webhook (handle_webhook db sig (ConstructResult.ok e) false now).db
        sig (ConstructResult.ok e) uF2 now2 =
      ⟨⟨200, true, some "Already processed", none, none⟩,
       (handle_webhook db sig (ConstructResult.ok e) false now).db,
       [DbCall.selectUser uid]⟩ := by
  have hmt : isTruthy e.obj.metadata_user_id = true := by
    simp [hmeta, isTruthy, huid]
  have hget : e.obj.metadata_user_id.getD "" = uid := by simp [hmeta]
  have h1 : handle_webhook db sig (ConstructResult.ok e) false now =
      ⟨⟨200, true, some "Payment processed successfully", none, some uid⟩,
       applyPaymentUpdate db uid e.obj now,
       [DbCall.selectUser uid, DbCall.updateUser uid]⟩ := by
    simp [handle_webhook, hsig, htype, hpaid, hmt, hget, hnodup]
  have hfind1 := findUser_update_found db uid e.obj now u hfind
  have hdup : isDuplicate (findUser (applyPaymentUpdate db uid e.obj now) uid)
      e.obj = true := by
    simp [hfind1, isDuplicate]
  have h2 : handle_webhook (applyPaymentUpdate db uid e.obj now) sig
      (ConstructResult.ok e) uF2 now2 =
      ⟨⟨200, true, some "Already processed", none, none⟩,
       applyPaymentUpdate db uid e.obj now, [DbCall.selectUser uid]⟩ := by
    simp [handle_webhook, hsig, htype, hpaid, hmt, hget, hdup]
  refine ⟨by simp [h1], by simp [h1, hfind1], ?_⟩
  simp only [h1]
  exact h2

/-- C2: a request with a missing (or empty) `Stripe-Signature` header, a
malformed payload, or a failing signature verification is rejected with 400;
the `users` table is untouched and no gateway call is made; and when the
header is missing the outcome does not depend on the payload at all —
verification precedes any reading of it. -/
theorem webhook_rejects_unauthenticated
    (db : List UserRow) (sig : Option String) (c : ConstructResult)
    (uF : Bool) (now : Nat)
    (hbad : isTruthy sig = false ∨ c = ConstructResult.valueError ∨
      c = ConstructResult.sigError) :
    (handle_webhook db sig c uF now).resp.status = 400 ∧
    (handle_webhook db sig c uF now).resp.ok = false ∧
    (handle_webhook db sig c uF now).db = db ∧
    (handle_webhook db sig c uF now).calls = [] ∧
    (isTruthy sig = false →
      ∀ c', handle_webhook db sig c' uF now = handle_webhook db sig c uF now) := by
  by_cases hs : isTruthy sig = true
  · rcases hbad with h | h | h
    · rw [hs] at h; cases h
    · subst h; simp [handle_webhook, hs]
    · subst h; simp [handle_webhook, hs]
  · have hsf : isTruthy sig = false := by simpa using hs
    simp [handle_webhook, hsf]

/-- C3: a validly signed event that is not a paid completed checkout — a
completed session whose payment status is not `paid`, an expired session, or
any other event type — changes no account state, issues no gateway call, and
is acknowledged with 200 success; in the completed-but-unpaid case the body
says `Session not paid, ignoring`. -/
theorem webhook_nonpaid_events_no_change
    (db : List UserRow) (sig : Option String) (e : StripeEvent)
    (uF : Bool) (now : Nat)
    (hsig : isTruthy sig = true)
    (hnp : e.type = "checkout.session.completed" →
      e.obj.payment_status ≠ some "paid") :
    (handle_webhook db sig (ConstructResult.ok e) uF now).resp.status = 200 ∧
    (handle_webhook db sig (ConstructResult.ok e) uF now).resp.ok = true ∧
    (handle_webhook db sig (ConstructResult.ok e) uF now).db = db ∧
    (handle_webhook db sig (ConstructResult.ok e) uF now).calls = [] ∧
    (e.type = "checkout.session.completed" →
      (handle_webhook db sig (ConstructResult.ok e) uF now).resp.message =
        some "Session not paid, ignoring") := by
  by_cases ht : e.type = "checkout.session.completed"
  · have hne := hnp ht
    have hb : (e.obj.payment_status != some "paid") = true := by
      simp [bne_iff_ne, hne]
    simp [handle_webhook, hsig, ht, hb]
  · have htb : (e.type == "checkout.session.completed") = false := by
      simp [ht]
    by_cases he : e.type = "checkout.session.expired"
    · simp [handle_webhook, hsig, htb, he, ht]
    · have heb : (e.type == "checkout.session.expired") = false := by
        simp [he]
      simp [handle_webhook, hsig, htb, heb, ht]

/-- C4: when a validly signed, non-duplicate paid checkout event reaches the
account UPDATE and the gateway raises on it, the handler answers 500
`DATABASE_ERROR` — a server error, so the provider will retry — and the
table is left unchanged. -/
theorem webhook_update_failure_returns_500
    (db : List UserRow) (sig : Option String) (e : StripeEvent)
    (uid : String) (now : Nat)
    (hsig : isTruthy sig = true)
    (htype : e.type = "checkout.session.completed")
    (hpaid : e.obj.payment_status = some "paid")
    (hmeta : e.obj.metadata_user_id = some uid)
    (huid : uid ≠ "")
    (hnodup : isDuplicate (findUser db uid) e.obj = false) :
    (handle_webhook db sig (ConstructResult.ok e) true now).resp.status = 500 ∧
    (handle_webhook db sig (ConstructResult.ok e) true now).resp.ok = false ∧
    (handle_webhook db sig (ConstructResult.ok e) true now).resp.error =
      some "DATABASE_ERROR" ∧
    (handle_webhook db sig (ConstructResult.ok e) true now).db = db := by
  have hmt : isTruthy e.obj.metadata_user_id = true := by
    simp [hmeta, isTruthy, huid]
  have hget : e.obj.metadata_user_id.getD "" = uid := by simp [hmeta]
  simp [handle_webhook, hsig, htype, hpaid, hmt, hget, hnodup]

/-- C9: a validly signed paid checkout event whose metadata account id
matches no row is not reported as an error: the duplicate check finds
nothing, both statements are issued, the UPDATE matches zero rows leaving
the table unchanged, and the response is 200 "Payment processed
successfully". -/
theorem webhook_unknown_account_acknowledged
    (db : List UserRow) (sig : Option String) (e : StripeEvent)
    (uid : String) (now : Nat)
    (hsig : isTruthy sig = true)
    (htype : e.type = "checkout.session.completed")
    (hpaid : e.obj.payment_status = some "paid")
    (hmeta : e.obj.metadata_user_id = some uid)
    (huid : uid ≠ "")
    (hfind : findUser db uid = none) :
    (handle_webhook db sig (ConstructResult.ok e) false now).resp =
      ⟨200, true, some "Payment processed successfully", none, some uid⟩ ∧
    (handle_webhook db sig (ConstructResult.ok e) false now).db = db ∧
    (handle_webhook db sig (ConstructResult.ok e) false now).calls =
      [DbCall.selectUser uid, DbCall.updateUser uid] := by
  have hmt : isTruthy e.obj.metadata_user_id = true := by
    simp [hmeta, isTruthy, huid]
  have hget : e.obj.metadata_user_id.getD "" = uid := by simp [hmeta]
  have hnodup : isDuplicate (findUser db uid) e.obj = false := by
    simp [hfind, isDuplicate]
  have hupd := applyPaymentUpdate_not_found db uid e.obj now hfind
  simp [handle_webhook, hsig, htype, hpaid, hmt, hget, hnodup, hupd]

/-- C7: once a connection is acquired, `DBHelper.execute_query` closes it on
every exit path (the trace always ends with the close); if statement
execution raises, a rollback is issued on the connection and the error is
re-raised to the caller; and on success in write mode — no `fetch_one`,
`fetch_all`, or `lastrowid` selector — a commit is issued before returning. -/
theorem execute_query_contract (f1 f2 f3 eF : Bool) (cur : CursorData) :
    ((execute_query f1 f2 f3 false eF cur).2.getLast? = some ConnOp.closeConn) ∧
    (eF = true →
      (execute_query f1 f2 f3 false eF cur).1 =
        Except.error DbError.queryFailed ∧
      (execute_query f1 f2 f3 false eF cur).2.contains ConnOp.rollback = true) ∧
    (eF = false → f1 = false → f2 = false → f3 = false →
      (execute_query f1 f2 f3 false eF cur).1 = Except.ok ExecResult.noneRes ∧
      (execute_query f1 f2 f3 false eF cur).2.contains ConnOp.commit = true) := by
  cases eF <;> cases f1 <;> cases f2 <;> cases f3 <;>
    simp [execute_query, List.getLast?]

/-- C10: in the inserted-identifier result mode (`lastrowid=True`) the
gateway never issues a commit before closing the connection; in general a
commit happens exactly when none of the three selector flags is set and
execution succeeded. -/
theorem lastrowid_mode_never_commits (f1 f2 eF : Bool) (cur : CursorData) :
    ((execute_query f1 f2 true false eF cur).2.contains ConnOp.commit
      = false) ∧
    (∀ f3, (execute_query f1 f2 f3 false false cur).2.contains ConnOp.commit
      = (!f1 && !f2 && !f3)) := by
  refine ⟨?_, fun f3 => ?_⟩ <;>
    (cases f1 <;> cases f2 <;> cases eF <;> first
      | (cases f3 <;> simp [execute_query])
      | simp [execute_query])

/-- A lead-capture request that passes every validation check, used to
exercise the handlers at a concrete input. -/
def demoJourneyReq : JourneyRequest :=
  { firstName := some "Ada"
    lastName := some "Lovelace"
    email := some "ada@example.com"
    phone := some "1234567890"
    timeZone := some "UTC"
    agree := some true }

/-- A concierge request that passes every validation check. -/
def demoConciergeReq : ConciergeReq :=
  { firstName := some "Ada"
    lastName := some "Lovelace"
    email := some "ada@example.com"
    phone := some "1234567890"
    selectedServices := ["tax-planning"] }

/-- An email configuration with the service enabled and one recipient. -/
def demoEmailCfg : EmailConfig :=
  { enabled := true, admin_emails := ["admin@celerey.co"] }

/-- C5 counterexample: on a valid lead-capture submission with the email
service enabled, the request handler itself executes the delivery attempt —
the attempt is in the handler's own synchronous trace, so the handler waits
for the provider call to finish before responding — and starts no detached
worker.  This refutes the claim that for every record-creating request the
notifier runs as a detached worker not awaited by the handler: start.py
line 220 calls `email_service.send_lead_notification` inline and inspects
its result before building the response. -/
theorem begin_journey_blocks_on_notification :
    ((begin_journey demoEmailCfg demoJourneyReq {} "uuid-1" 0
        (EmailOutcome.raised "provider timeout")).effects.contains
      (Effect.emailAttempt (EmailOutcome.raised "provider timeout")) = true) ∧
    ((begin_journey demoEmailCfg demoJourneyReq {} "uuid-1" 0
        (EmailOutcome.raised "provider timeout")).effects.contains
      Effect.spawnWorker = false) := by decide

/-- C5 amended: only the concierge handler dispatches the admin notification
on a detached worker (its trace records the thread start and contains no
delivery attempt of its own); the lead-capture handler performs the delivery
attempt synchronously inside the request before responding, starting no
worker — though neither handler's response depends on the delivery
outcome. -/
theorem notifier_dispatch_modes
    (cfg : EmailConfig) (jreq : JourneyRequest) (creq : ConciergeReq)
    (jdb : StartDb) (cdb : ConciergeDb) (uuid : String) (now : Nat)
    (o : EmailOutcome)
    (hjval : journeyErrors jreq = []) (hcval : conciergeErrors creq = [])
    (hen : cfg.enabled = true) (hrec : cfg.admin_emails ≠ []) :
    ((begin_journey cfg jreq jdb uuid now o).effects.contains
        (Effect.emailAttempt o) = true) ∧
    ((begin_journey cfg jreq jdb uuid now o).effects.contains
        Effect.spawnWorker = false) ∧
    (∀ o', (begin_journey cfg jreq jdb uuid now o').resp =
        (begin_journey cfg jreq jdb uuid now o).resp) ∧
    ((create_concierge_request cfg creq cdb now).effects =
        [Effect.dbInsertConcierge cdb.next_id, Effect.spawnWorker]) ∧
    (∀ o', (create_concierge_request cfg creq cdb now).effects.contains
        (Effect.emailAttempt o') = false) := by
  have hrecb : cfg.admin_emails.isEmpty = false := by
    cases h : cfg.admin_emails with
    | nil => exact absurd h hrec
    | cons a l => rfl
  refine ⟨?_, ?_, ?_, ?_, ?_⟩
  · cases hf : jdb.users.find?
        (fun u => u.email == normalize_email (jreq.email.getD "")) <;>
      simp [begin_journey, hjval, hen, hrecb, hf, isEmailAttempt]
  · cases hf : jdb.users.find?
        (fun u => u.email == normalize_email (jreq.email.getD "")) <;>
      simp [begin_journey, hjval, hen, hrecb, hf]
  · intro o'
    cases hf : jdb.users.find?
        (fun u => u.email == normalize_email (jreq.email.getD "")) <;>
      simp [begin_journey, hjval, hen, hrecb, hf]
  · simp [create_concierge_request, hcval, hen, hrecb]
  · intro o'
    simp [create_concierge_request, hcval, hen, hrecb]

/-- C6: when the synchronous admin-notification attempt of a lead-capture
request fails (provider error payload or raised exception), exactly one
delivery attempt was made, the committed lead insert is untouched — the
resulting database state is identical for every outcome and still extends
the lead table by the new row — and the response is the same 201 success
carrying no notification error. -/
theorem notification_failure_isolated
    (cfg : EmailConfig) (req : JourneyRequest) (db : StartDb)
    (uuid : String) (now : Nat) (o : EmailOutcome)
    (hval : journeyErrors req = [])
    (hen : cfg.enabled = true) (hrec : cfg.admin_emails ≠ [])
    (_hfail : ∀ i, o ≠ EmailOutcome.sent i) :
    (begin_journey cfg req db uuid now o).resp.status = 201 ∧
    (begin_journey cfg req db uuid now o).resp.ok = true ∧
    (begin_journey cfg req db uuid now o).resp.error = none ∧
    ((begin_journey cfg req db uuid now o).effects.filter
        isEmailAttempt).length = 1 ∧
    (∀ o', (begin_journey cfg req db uuid now o').db =
        (begin_journey cfg req db uuid now o).db) ∧
    (∃ l, (begin_journey cfg req db uuid now o).db.support_leads =
        db.support_leads ++ [l]) := by
  have hrecb : cfg.admin_emails.isEmpty = false := by
    cases h : cfg.admin_emails with
    | nil => exact absurd h hrec
    | cons a l => rfl
  cases hf : db.users.find?
      (fun u => u.email == normalize_email (req.email.getD "")) <;>
    simp [begin_journey, hval, hen, hrecb, hf, isEmailAttempt]

/-- C8: the normalized (trimmed, lowercased) email is the deduplication key
of lead capture: when a user row with that stored email exists, no user row
is inserted and the response carries the existing row's identifier; a fresh
row — keyed by the newly drawn UUID and storing the normalized email — is
appended only when no such row exists. -/
theorem email_dedup_by_normalized_email
    (cfg : EmailConfig) (req : JourneyRequest) (db : StartDb)
    (uuid : String) (now : Nat) (o : EmailOutcome)
    (hval : journeyErrors req = []) :
    (∀ u, db.users.find?
        (fun x => x.email == normalize_email (req.email.getD "")) = some u →
      (begin_journey cfg req db uuid now o).db.users = db.users ∧
      (begin_journey cfg req db uuid now o).resp.userId = some u.id) ∧
    (db.users.find?
        (fun x => x.email == normalize_email (req.email.getD "")) = none →
      (begin_journey cfg req db uuid now o).resp.userId = some uuid ∧
      ∃ newUser : UserRow,
        (begin_journey cfg req db uuid now o).db.users =
          db.users ++ [newUser] ∧
        newUser.id = uuid ∧
        newUser.email = normalize_email (req.email.getD "")) := by
  constructor
  · intro u hf
    simp [begin_journey, hval, hf]
  · intro hf
    simp [begin_journey, hval, hf]

/-! ## Concrete witnesses -/

/-- A `users` row for the scenario account 42, not yet paid. -/
def demoUser : UserRow := { id := "42", email := "ada@example.com" }

/-- The spec's scenario event: paid completed checkout session `cs_1` for
account 42. -/
def demoPaidEvent : StripeEvent :=
  { type := "checkout.session.completed"
    obj := { id := some "cs_1"
             payment_status := some "paid"
             customer := some "cus_9"
             payment_intent := some "pi_7"
             metadata_user_id := some "42" } }

/-- The spec's scenario event with `payment_status` `unpaid`. -/
def demoUnpaidEvent : StripeEvent :=
  { type := "checkout.session.completed"
    obj := { id := some "cs_2"
             payment_status := some "unpaid"
             metadata_user_id := some "42" } }

/-- Concrete cursor results for exercising the gateway. -/
def demoCursor : CursorData :=
  { fetchedOne := some 1, fetchedAll := [1, 2], lastInsertId := 5 }

/-- Witness for C1: resubmitting the scenario event after it was processed
yields the idempotent 200 "Already processed" acknowledgment with no
UPDATE, even though a second UPDATE would fail. -/
theorem webhook_paid_idempotent_witness :
    handle_webhook
        (handle_webhook [demoUser] (some "t=1,v1=abc")
          (ConstructResult.ok demoPaidEvent) false 7).db
        (some "t=1,v1=abc") (ConstructResult.ok demoPaidEvent) true 9 =
      ⟨⟨200, true, some "Already processed", none, none⟩,
       (handle_webhook [demoUser] (some "t=1,v1=abc")
         (ConstructResult.ok demoPaidEvent) false 7).db,
       [DbCall.selectUser "42"]⟩ :=
  (webhook_paid_idempotent [demoUser] (some "t=1,v1=abc") demoPaidEvent
    demoUser "42" 7 9 true (by decide) rfl rfl rfl (by decide) (by decide)
    rfl).2.2

/-- Witness for C2: a request with no `Stripe-Signature` header is a 400. -/
theorem webhook_rejects_unauthenticated_witness :
    (handle_webhook [demoUser] none ConstructResult.sigError false 3).resp.status
      = 400 :=
  (webhook_rejects_unauthenticated [demoUser] none ConstructResult.sigError
    false 3 (Or.inl (by decide))).1

/-- Witness for C3: the scenario event with `payment_status` `unpaid` is
acknowledged with "Session not paid, ignoring". -/
theorem webhook_nonpaid_events_no_change_witness :
    (handle_webhook [demoUser] (some "t=1,v1=abc")
        (ConstructResult.ok demoUnpaidEvent) false 3).resp.message =
      some "Session not paid, ignoring" :=
  (webhook_nonpaid_events_no_change [demoUser] (some "t=1,v1=abc")
    demoUnpaidEvent false 3 (by decide) (fun _ => by decide)).2.2.2.2 rfl

/-- Witness for C4: a gateway failure on the UPDATE of the scenario event
yields a 500. -/
theorem webhook_update_failure_returns_500_witness :
    (handle_webhook [demoUser] (some "t=1,v1=abc")
        (ConstructResult.ok demoPaidEvent) true 7).resp.status = 500 :=
  (webhook_update_failure_returns_500 [demoUser] (some "t=1,v1=abc")
    demoPaidEvent "42" 7 (by decide) rfl rfl rfl (by decide) (by decide)).1

/-- Witness for C9: the scenario event against an empty `users` table is
still acknowledged as processed. -/
theorem webhook_unknown_account_acknowledged_witness :
    (handle_webhook [] (some "t=1,v1=abc")
        (ConstructResult.ok demoPaidEvent) false 7).resp =
      ⟨200, true, some "Payment processed successfully", none, some "42"⟩ :=
  (webhook_unknown_account_acknowledged [] (some "t=1,v1=abc") demoPaidEvent
    "42" 7 (by decide) rfl rfl rfl (by decide) rfl).1

/-- Witness for C7: a failing execution in write mode rolls back on the
acquired connection. -/
theorem execute_query_contract_witness :
    (execute_query false false false false true demoCursor).2.contains
      ConnOp.rollback = true :=
  ((execute_query_contract false false false true demoCursor).2.1 rfl).2

/-- Witness for C10: a failing INSERT in inserted-identifier mode issues no
commit. -/
theorem lastrowid_mode_never_commits_witness :
    (execute_query false false true false true demoCursor).2.contains
      ConnOp.commit = false :=
  (lastrowid_mode_never_commits false false true demoCursor).1

/-- Witness for the amended C5: a valid concierge request with email enabled
inserts the row and starts the detached worker, nothing else. -/
theorem notifier_dispatch_modes_witness :
    (create_concierge_request demoEmailCfg demoConciergeReq {} 0).effects =
      [Effect.dbInsertConcierge 1, Effect.spawnWorker] :=
  (notifier_dispatch_modes demoEmailCfg demoJourneyReq demoConciergeReq
    {} {} "uuid-1" 0 (EmailOutcome.failed "x") (by decide) (by decide) rfl
    (by decide)).2.2.2.1

/-- Witness for C6: a raised provider exception still leaves exactly one
delivery attempt in the trace of a valid lead-capture request. -/
theorem notification_failure_isolated_witness :
    ((begin_journey demoEmailCfg demoJourneyReq {} "uuid-1" 0
        (EmailOutcome.raised "net down")).effects.filter
      isEmailAttempt).length = 1 :=
  (notification_failure_isolated demoEmailCfg demoJourneyReq {} "uuid-1" 0
    (EmailOutcome.raised "net down") (by decide) rfl (by decide)
    (fun i h => EmailOutcome.noConfusion h)).2.2.2.1

/-- Witness for C8: against an empty table the valid lead-capture request
creates the user under the freshly drawn UUID. -/
theorem email_dedup_by_normalized_email_witness :
    (begin_journey demoEmailCfg demoJourneyReq {} "uuid-1" 0
        (EmailOutcome.sent "e")).resp.userId = some "uuid-1" :=
  ((email_dedup_by_normalized_email demoEmailCfg demoJourneyReq {} "uuid-1" 0
    (EmailOutcome.sent "e") (by decide)).2 (by decide)).1

end Celerey
